import Mathlib

/-!
Verification development for the CropHealth AI frontend (Khizer-FYP).

The development shallowly embeds the three client-side protocols of the
repository:

* the `usePolling` hook of `frontend/src/hooks/usePolling.js` (job poller);
* the `Dashboard` orchestration (`handleAnalyze`, `handleReset`, `CoordPanel`);
* the Leaflet `MapComponent` (geometry normalisation in `handleCreated`,
  the debounced Nominatim autocomplete effect, `goToResult`, `handleSearch`).

Stateful React hooks are embedded as explicit state records together with a
small-step event function; an event models one turn of the single-threaded
browser event loop (a prop change re-running an effect, a timer firing, a
network response arriving).
-/

/-- Remote job status, as reported by `GET /api/result/{job_id}`. -/
inductive JobStatus where
  | pending
  | processing
  | completed
  | failed
deriving DecidableEq

/-- Payload of a status-fetch response (the fields the claims mention). -/
structure JobData where
  status : JobStatus
  prediction : Option String
deriving DecidableEq

/-- State of the `usePolling(jobId, interval)` hook.

`jobId` is the prop currently passed to the hook, `result` and `polling` are
its `useState` cells and `timer` is `timerRef.current`.  `activeTimers` models
the set of live `setInterval` handles (with the job id each interval closure
captured), `inflight` the outstanding `getAnalysisResult` fetches (with the
job id they were issued for), and `nextId` a fresh-id counter for timers and
fetches. -/
structure PollState where
  jobId : Option String
  result : Option JobData
  polling : Bool
  timer : Option Nat
  activeTimers : List (Nat × String)
  inflight : List (Nat × String)
  nextId : Nat
deriving DecidableEq

/-- Events the `usePolling` hook reacts to: the `jobId` prop changing
(re-running the effect), an interval tick, and a fetch settling. -/
inductive PollEvent where
  | setJob (j : Option String)
  | tick (tid : Nat)
  | fetchResolve (fid : Nat) (d : JobData)
  | fetchError (fid : Nat)

/-- One step of the `usePolling` hook (frontend/src/hooks/usePolling.js).

* `setJob j`: React re-runs the effect only when the dep changes; the cleanup
  of the previous run (`clearInterval(timerRef.current); setPolling(false)`)
  was registered only when the previous `jobId` was non-null (the effect
  returns early, registering no cleanup, on `!jobId`).  The new run, for a
  non-null job, sets `polling`, issues one immediate `poll()` fetch and starts
  a fresh interval stored in `timerRef`.
* `tick tid`: a live interval fires and issues a fetch for the job id its
  closure captured.
* `fetchResolve fid d`: `setResult(data)` is applied unconditionally; if the
  status is terminal the code clears `timerRef.current` (the ref value at
  response time) and `polling`.
* `fetchError fid`: the `catch` branch only logs; nothing else changes. -/
def pollStep (s : PollState) (e : PollEvent) : PollState :=
  match e with
  | .setJob j =>
    if j = s.jobId then s
    else
      let s₁ :=
        match s.jobId with
        | some _ =>
          { s with
            activeTimers := s.activeTimers.filter (fun p => decide (some p.1 ≠ s.timer))
            polling := false }
        | none => s
      match j with
      | none => { s₁ with jobId := none }
      | some jv =>
        { s₁ with
          jobId := some jv
          polling := true
          inflight := (s₁.nextId, jv) :: s₁.inflight
          activeTimers := (s₁.nextId + 1, jv) :: s₁.activeTimers
          timer := some (s₁.nextId + 1)
          nextId := s₁.nextId + 2 }
  | .tick tid =>
    match s.activeTimers.find? (fun p => decide (p.1 = tid)) with
    | some (_, j) =>
      { s with inflight := (s.nextId, j) :: s.inflight, nextId := s.nextId + 1 }
    | none => s
  | .fetchResolve fid d =>
    if s.inflight.any (fun p => decide (p.1 = fid)) then
      let s₁ :=
        { s with
          inflight := s.inflight.filter (fun p => decide (p.1 ≠ fid))
          result := some d }
      if d.status = .completed ∨ d.status = .failed then
        { s₁ with
          polling := false
          activeTimers := s₁.activeTimers.filter (fun p => decide (some p.1 ≠ s.timer)) }
      else s₁
    else s
  | .fetchError fid =>
    if s.inflight.any (fun p => decide (p.1 = fid)) then
      { s with inflight := s.inflight.filter (fun p => decide (p.1 ≠ fid)) }
    else s

/-- Initial hook state: no job, no result, no timer. -/
def pollInit : PollState :=
  { jobId := none
    result := none
    polling := false
    timer := none
    activeTimers := []
    inflight := []
    nextId := 0 }

/-- Single-session invariant of `usePolling`: at most one interval is live,
and when one is, `timerRef` holds its handle and it belongs to the current
job. -/
def PollInv (s : PollState) : Prop :=
  s.activeTimers = [] ∨
    ∃ tid j, s.activeTimers = [(tid, j)] ∧ s.timer = some tid ∧ s.jobId = some j

/-- A Leaflet `LatLng`: the drawing library stores latitude first.
Coordinates are modelled as exact integers; none of the verified code paths
performs arithmetic on them. -/
structure LatLng where
  lat : Int
  lng : Int
deriving DecidableEq

/-- The `(ll) => [ll.lng, ll.lat]` mapping of `handleCreated`: swap the
library order (lat, lng) to the canonical GeoJSON (lng, lat) order. -/
def toPair (ll : LatLng) : Int × Int :=
  (ll.lng, ll.lat)

/-- The GeoJSON object `{ type: "Polygon", coordinates: [coordinates] }`
produced by the map component. -/
structure Geojson where
  coordinates : List (List (Int × Int))
deriving DecidableEq

/-- `coordinates.push(coordinates[0])` of `handleCreated`: append the first
mapped vertex (the empty case cannot occur, the drawing tool only emits
polygons with at least 3 vertices). -/
def closeRing (coordinates : List (Int × Int)) : List (Int × Int) :=
  match coordinates with
  | [] => []
  | c0 :: _ => coordinates ++ [c0]

/-- `handleCreated` of `MapComponent` (Leaflet variant): take the outer ring
`layer.getLatLngs()[0]`, map every vertex to (lng, lat) and close the ring. -/
def handleCreated (latlngs : List LatLng) : Geojson :=
  { coordinates := [closeRing (latlngs.map toPair)] }

/-- The closing-vertex strip of `CoordPanel` (Dashboard): drop the last ring
vertex when both its components equal the corresponding components of the
first vertex. -/
def coordPanelVertices (g : Geojson) : List (Int × Int) :=
  let ring := g.coordinates.headD []
  match ring with
  | [] => ring
  | c0 :: _ =>
    match ring.getLast? with
    | some cl => if cl.1 = c0.1 ∧ cl.2 = c0.2 then ring.dropLast else ring
    | none => ring

/-- Outcome of the awaited `createAnalysis` call inside `handleAnalyze`:
either `{job_id}` or a rejection whose optional `err.response.data.detail`
feeds the error banner. -/
inductive SubmitOutcome where
  | success (job_id : String)
  | failure (detail : Option String)

/-- State owned by the `Dashboard` component; the polling hook state is
embedded, and the `jobId` passed to the hook lives in `poll.jobId`. -/
structure DashState where
  aoiGeojson : Option Geojson
  startDate : String
  endDate : String
  submitting : Bool
  error : Option String
  poll : PollState

/-- `handleAnalyze` of the Dashboard, one full invocation: validate the AOI
and the date range (an empty string is the missing-date falsy case), then
await `createAnalysis`; on success store the returned job id (re-running the
polling effect), on failure show the remote detail or the generic message.
The returned flag records whether the network call was issued.  `submitting`
is raised before the call and lowered in the `finally` block, so it is
`false` again once the invocation completes. -/
def handleAnalyze (s : DashState) (o : SubmitOutcome) : DashState × Bool :=
  if s.aoiGeojson = none then
    ({ s with error := some "Please draw an Area of Interest on the map." }, false)
  else if s.startDate = "" ∨ s.endDate = "" then
    ({ s with error := some "Please select a date range." }, false)
  else
    match o with
    | .success job_id =>
      ({ s with
          error := none
          submitting := false
          poll := pollStep s.poll (.setJob (some job_id)) }, true)
    | .failure detail =>
      ({ s with
          error := some (detail.getD "Failed to create analysis. Try again.")
          submitting := false }, true)

/-- `handleReset` of the Dashboard: null the AOI, the job id and the error;
the job-id change re-runs the polling effect, whose cleanup clears the
interval. -/
def handleReset (s : DashState) : DashState :=
  { s with
    aoiGeojson := none
    error := none
    poll := pollStep s.poll (.setJob none) }

/-- A Nominatim search result, with the fields the component reads. -/
structure Item where
  place_id : Nat
  display_name : String
  lat : Int
  lon : Int
  type : String
deriving DecidableEq

/-- State of the search subsystem of the Leaflet `MapComponent`.

`debounce` is the pending `setTimeout` (handle and the trimmed query it will
fetch), `inflight` the outstanding suggestion fetches (handle and query), and
`nextId` a fresh-id counter for both.  The remaining fields are the
`useState` cells and the `cachedItem` ref of the component. -/
structure SearchState where
  searchQuery : String
  suggestions : List Item
  isSearching : Bool
  searchError : String
  searchResult : Option ((Int × Int) × String)
  flyTo : Option ((Int × Int) × Nat)
  showSuggestions : Bool
  cachedItem : Option Item
  debounce : Option (Nat × String)
  inflight : List (Nat × String)
  nextId : Nat
deriving DecidableEq

/-- Model of the JavaScript string method trim(): strip leading and trailing
whitespace.  Implemented on the character list so that it evaluates inside
the kernel. -/
def jsTrim (s : String) : String :=
  ⟨((s.data.dropWhile Char.isWhitespace).reverse.dropWhile Char.isWhitespace).reverse⟩

/-- Model of the JavaScript string property length (character count). -/
def jsLength (s : String) : Nat :=
  s.data.length

/-- Model of the JavaScript expression split(",")[0]: the prefix before the
first comma (the whole string when it has none). -/
def jsSplitFirst (s : String) : String :=
  ⟨s.data.takeWhile (fun c => decide (c ≠ ','))⟩

/-- Initial search state of a freshly mounted component. -/
def searchInit : SearchState :=
  { searchQuery := ""
    suggestions := []
    isSearching := false
    searchError := ""
    searchResult := none
    flyTo := none
    showSuggestions := false
    cachedItem := none
    debounce := none
    inflight := []
    nextId := 0 }

/-- The debounced autocomplete effect (deps `[searchQuery]`): cancel the
pending timeout; if the trimmed query is shorter than 3 characters clear the
suggestions and stop, otherwise schedule one fetch for the trimmed query
after the 350 ms quiet period. -/
def queryEffect (s : SearchState) : SearchState :=
  let q := jsTrim s.searchQuery
  if jsLength q < 3 then
    { s with suggestions := [], showSuggestions := false, debounce := none }
  else
    { s with debounce := some (s.nextId, q), nextId := s.nextId + 1 }

/-- `goToResult`: cache the item, request the animated fly-to (zoom chosen by
place kind), show the marker, shorten the visible text to the first
comma-delimited segment, and drop suggestions and error.  When the visible
text actually changes, the autocomplete effect re-runs on the new value. -/
def goToResult (it : Item) (s : SearchState) : SearchState :=
  let center := (it.lat, it.lon)
  let zoom : Nat := if it.type = "country" then 5 else if it.type = "state" then 7 else 14
  let shortName := jsTrim (jsSplitFirst it.display_name)
  let s₁ :=
    { s with
      cachedItem := some it
      flyTo := some (center, zoom)
      searchResult := some (center, it.display_name)
      searchQuery := shortName
      suggestions := []
      showSuggestions := false
      searchError := "" }
  if shortName = s.searchQuery then s₁ else queryEffect s₁

/-- Events of the search subsystem.  An `input` event is a keystroke that
changes the field value (the DOM fires change events only for actual
changes); it runs the `onChange` handler and then the autocomplete effect. -/
inductive SearchEvent where
  | input (text : String)
  | timerFire
  | fetchReturn (fid : Nat) (data : List Item)
  | fetchFail (fid : Nat)

/-- One step of the search subsystem.

* `input text`: the `onChange` handler sets the query, clears the error and
  nulls the `cachedItem` ref; the effect then reschedules the debounce.
* `timerFire`: the pending timeout fires and issues the suggestion fetch for
  the query it captured.
* `fetchReturn fid data`: `setSuggestions(data)` and
  `setShowSuggestions(data.length > 0)` are applied unconditionally for any
  outstanding fetch; the code attaches no revision tag to responses.
* `fetchFail fid`: the catch branch clears the suggestions. -/
def searchStep (s : SearchState) (e : SearchEvent) : SearchState :=
  match e with
  | .input text =>
    queryEffect { s with searchQuery := text, searchError := "", cachedItem := none }
  | .timerFire =>
    match s.debounce with
    | some (_, q) =>
      { s with
        debounce := none
        inflight := (s.nextId, q) :: s.inflight
        nextId := s.nextId + 1 }
    | none => s
  | .fetchReturn fid data =>
    if s.inflight.any (fun p => decide (p.1 = fid)) then
      { s with
        inflight := s.inflight.filter (fun p => decide (p.1 ≠ fid))
        suggestions := data
        showSuggestions := decide (0 < data.length) }
    else s
  | .fetchFail fid =>
    if s.inflight.any (fun p => decide (p.1 = fid)) then
      { s with
        inflight := s.inflight.filter (fun p => decide (p.1 ≠ fid))
        suggestions := [] }
    else s

/-- `handleSearch` (form submit): empty trimmed query returns early; a cached
suggestion pick is reused with no network call; otherwise the spinner is
raised and the single top-result lookup is issued (flag `true`). -/
def handleSearch (s : SearchState) : SearchState × Bool :=
  let q := jsTrim s.searchQuery
  if q = "" then (s, false)
  else
    match s.cachedItem with
    | some it => (goToResult it s, false)
    | none =>
      ({ s with
          isSearching := true
          searchError := ""
          suggestions := []
          showSuggestions := false }, true)

/-- Settling of the top-result lookup issued by `handleSearch` when nothing
is cached: the best match is treated as a selection, an empty list shows the
no-results message, a rejection the network-failure message; the spinner is
lowered in every case. -/
def handleSearchSettled (s : SearchState) (outcome : Option (List Item)) : SearchState :=
  match outcome with
  | some (it :: _) => { goToResult it s with isSearching := false }
  | some [] =>
    { s with
      searchError := "No results found for that location."
      searchResult := none
      isSearching := false }
  | none =>
    { s with
      searchError := "Search failed. Check your connection."
      searchResult := none
      isSearching := false }

/-- Run a list of search events from a state. -/
def runSearch (s : SearchState) (es : List SearchEvent) : SearchState :=
  es.foldl searchStep s

/-- A non-terminal response payload delivered by a fetch issued for job A. -/
def dStale : JobData :=
  { status := .processing, prediction := some "from-job-A" }

/-- A terminal response payload with the result of the analysis. -/
def dCompleted : JobData :=
  { status := .completed, prediction := some "Stressed" }

/-- Hook state after the effect ran for job A. -/
def pollA : PollState :=
  pollStep pollInit (.setJob (some "A"))

/-- Hook state after job A was superseded by job B, with the immediate fetch
for A still outstanding. -/
def pollAB : PollState :=
  pollStep pollA (.setJob (some "B"))

/-- A drawn 3-vertex AOI. -/
def g0 : Geojson :=
  handleCreated [⟨31, 74⟩, ⟨31, 75⟩, ⟨32, 75⟩]

/-- Dashboard state with an AOI and both dates, ready to submit. -/
def dashReady : DashState :=
  { aoiGeojson := some g0
    startDate := "2024-01-01"
    endDate := "2024-06-01"
    submitting := false
    error := none
    poll := pollInit }

/-- Dashboard state with no AOI and no dates. -/
def dashEmpty : DashState :=
  { aoiGeojson := none
    startDate := ""
    endDate := ""
    submitting := false
    error := none
    poll := pollInit }

/-- Dashboard state after a successful submission of job-123. -/
def dashJob : DashState :=
  (handleAnalyze dashReady (.success "job-123")).1

/-- Dashboard state after the poll fetch for job-123 resolved `completed`. -/
def dashDone : DashState :=
  { dashJob with poll := pollStep dashJob.poll (.fetchResolve 0 dCompleted) }

/-- Nominatim item returned for the older query. -/
def itemOld : Item :=
  { place_id := 1
    display_name := "Lahore, Punjab, Pakistan"
    lat := 31
    lon := 74
    type := "city" }

/-- Nominatim item returned for the newer query. -/
def itemNew : Item :=
  { place_id := 2
    display_name := "Lahore Cantonment, Punjab, Pakistan"
    lat := 31
    lon := 74
    type := "suburb" }

/-- Two query revisions, both requests issued, newer response applied. -/
def staleTracePrefix : List SearchEvent :=
  [.input "Lahore", .timerFire, .input "Lahore Cant", .timerFire,
    .fetchReturn 3 [itemNew]]

/-- The same trace, followed by the late response of the older request. -/
def staleTrace : List SearchEvent :=
  staleTracePrefix ++ [.fetchReturn 1 [itemOld]]

/-- Search state right after a suggestion was picked (cache set, text not
edited since). -/
def cachedState : SearchState :=
  { searchInit with cachedItem := some itemOld, searchQuery := "Lahore" }

/-- Search state with one suggestion request issued and outstanding. -/
def searchIssued : SearchState :=
  runSearch searchInit [.input "Lahore", .timerFire]

theorem pollInv_init : PollInv pollInit :=
  Or.inl rfl

/-- Under the invariant, `clearInterval(timerRef.current)` leaves no live
interval behind. -/
theorem clearTimer_nil (s : PollState) (h : PollInv s) :
    s.activeTimers.filter (fun p => decide (some p.1 ≠ s.timer)) = [] := by
  rcases h with h | ⟨tid, j, hts, htm, _⟩
  · simp [h]
  · simp [hts, htm]

/-- The interval-tick branch of `poll` does not change the timer bookkeeping,
the tracked job, or the stored result. -/
theorem pollStep_tick_frame (s : PollState) (tid : Nat) :
    (pollStep s (.tick tid)).activeTimers = s.activeTimers ∧
    (pollStep s (.tick tid)).timer = s.timer ∧
    (pollStep s (.tick tid)).jobId = s.jobId ∧
    (pollStep s (.tick tid)).result = s.result := by
  unfold pollStep
  cases hf : s.activeTimers.find? (fun p => decide (p.1 = tid)) with
  | none => simp [hf]
  | some p => rcases p with ⟨t, j⟩; simp [hf]

theorem pollInv_step (s : PollState) (e : PollEvent) (h : PollInv s) :
    PollInv (pollStep s e) := by
  have hnil : s.jobId = none → s.activeTimers = [] := by
    intro hs
    rcases h with h | ⟨tid, j, hts, htm, hjob⟩
    · exact h
    · rw [hjob] at hs; cases hs
  rcases e with j | tid | ⟨fid, d⟩ | fid
  · by_cases hj : j = s.jobId
    · rw [pollStep, if_pos hj]; exact h
    · rw [pollStep, if_neg hj]
      rcases hs : s.jobId with _ | a <;> rcases j with _ | jv <;> simp only [hs]
      · exact absurd (hs.symm) hj
      · right
        refine ⟨s.nextId + 1, jv, ?_, rfl, rfl⟩
        show (s.nextId + 1, jv) :: s.activeTimers = [(s.nextId + 1, jv)]
        rw [hnil hs]
      · left
        exact clearTimer_nil s h
      · right
        refine ⟨s.nextId + 1, jv, ?_, rfl, rfl⟩
        show (s.nextId + 1, jv) ::
            s.activeTimers.filter (fun p => decide (some p.1 ≠ s.timer)) =
          [(s.nextId + 1, jv)]
        rw [clearTimer_nil s h]
  · rcases pollStep_tick_frame s tid with ⟨h1, h2, h3, _⟩
    rcases h with h | ⟨tid', j', hts, htm, hjob⟩
    · left; rw [h1, h]
    · right; exact ⟨tid', j', by rw [h1, hts], by rw [h2, htm], by rw [h3, hjob]⟩
  · by_cases hin : s.inflight.any (fun p => decide (p.1 = fid))
    · by_cases hterm : d.status = .completed ∨ d.status = .failed
      · left
        simp only [pollStep, if_pos hin, if_pos hterm]
        exact clearTimer_nil s h
      · simp only [pollStep, if_pos hin, if_neg hterm]
        rcases h with h | ⟨tid, j', hts, htm, hjob⟩
        · left; exact h
        · right; exact ⟨tid, j', hts, htm, hjob⟩
    · rw [pollStep, if_neg hin]; exact h
  · by_cases hin : s.inflight.any (fun p => decide (p.1 = fid))
    · simp only [pollStep, if_pos hin]
      rcases h with h | ⟨tid, j', hts, htm, hjob⟩
      · left; exact h
      · right; exact ⟨tid, j', hts, htm, hjob⟩
    · rw [pollStep, if_neg hin]; exact h

/-- Re-running the effect for a fresh job B while job A is tracked: the old
interval is cleared first and exactly the new one remains. -/
theorem setJob_fresh_spec (s : PollState) (A B : String) (hInv : PollInv s)
    (hA : s.jobId = some A) (hAB : A ≠ B) :
    pollStep s (.setJob (some B)) =
      { s with
        jobId := some B
        polling := true
        inflight := (s.nextId, B) :: s.inflight
        activeTimers := [(s.nextId + 1, B)]
        timer := some (s.nextId + 1)
        nextId := s.nextId + 2 } := by
  have hj : ¬ (some B : Option String) = s.jobId := by
    rw [hA]
    intro hcontra
    exact hAB (Option.some.inj hcontra).symm
  rw [pollStep, if_neg hj]
  simp only [hA]
  rw [clearTimer_nil s hInv]

/-- Re-running the effect with a null job id: the cleanup clears the interval
and the early return leaves no session; the stored result is untouched. -/
theorem setJob_none_spec (s : PollState) (hInv : PollInv s) :
    (pollStep s (.setJob none)).jobId = none ∧
    (pollStep s (.setJob none)).activeTimers = [] ∧
    (pollStep s (.setJob none)).result = s.result := by
  have hnil : s.jobId = none → s.activeTimers = [] := by
    intro hs
    rcases hInv with h | ⟨tid, j, hts, htm, hjob⟩
    · exact h
    · rw [hjob] at hs; cases hs
  rcases hs : s.jobId with _ | a
  · rw [pollStep, if_pos hs.symm]
    exact ⟨hs, hnil hs, rfl⟩
  · have hj : ¬ (none : Option String) = s.jobId := by rw [hs]; simp
    rw [pollStep, if_neg hj]
    simp only [hs]
    exact ⟨trivial, clearTimer_nil s hInv, trivial⟩

/-- `poll` applies `setResult(data)` to any outstanding fetch that resolves,
with no check of the job identifier. -/
theorem fetchResolve_applies (s : PollState) (fid : Nat) (d : JobData)
    (h : fid ∈ s.inflight.map Prod.fst) :
    (pollStep s (.fetchResolve fid d)).result = some d := by
  have hin : s.inflight.any (fun p => decide (p.1 = fid)) = true := by
    rw [List.any_eq_true]
    rcases List.mem_map.mp h with ⟨p, hp, hfst⟩
    exact ⟨p, hp, by simp [hfst]⟩
  rw [pollStep, if_pos hin]
  split <;> rfl

/-- The catch branch of `poll` removes the settled fetch and changes nothing
else. -/
theorem pollStep_fetchError_frame (s : PollState) (fid : Nat) :
    (pollStep s (.fetchError fid)).activeTimers = s.activeTimers ∧
    (pollStep s (.fetchError fid)).result = s.result ∧
    (pollStep s (.fetchError fid)).polling = s.polling ∧
    (pollStep s (.fetchError fid)).timer = s.timer ∧
    (pollStep s (.fetchError fid)).jobId = s.jobId ∧
    (pollStep s (.fetchError fid)).nextId = s.nextId := by
  by_cases hin : s.inflight.any (fun p => decide (p.1 = fid))
  · rw [pollStep, if_pos hin]
    exact ⟨rfl, rfl, rfl, rfl, rfl, rfl⟩
  · rw [pollStep, if_neg hin]
    exact ⟨rfl, rfl, rfl, rfl, rfl, rfl⟩

/-- A live interval that fires issues one fetch for its captured job id. -/
theorem pollStep_tick_fires (s : PollState) (tid : Nat) (j : String)
    (ht : s.activeTimers.find? (fun p => decide (p.1 = tid)) = some (tid, j)) :
    (pollStep s (.tick tid)).inflight = (s.nextId, j) :: s.inflight := by
  rw [pollStep, ht]

/-- A keystroke never issues a fetch by itself, and it nulls the cache. -/
theorem searchStep_input_frame (s : SearchState) (t : String) :
    (searchStep s (.input t)).inflight = s.inflight ∧
    (searchStep s (.input t)).cachedItem = none := by
  unfold searchStep queryEffect
  dsimp only
  split <;> exact ⟨rfl, rfl⟩

/-- A whole burst of keystrokes issues no fetch. -/
theorem foldl_input_inflight (s : SearchState) (qs : List String) :
    (qs.foldl (fun st t => searchStep st (.input t)) s).inflight = s.inflight := by
  induction qs generalizing s with
  | nil => rfl
  | cons q qs ih =>
    rw [List.foldl_cons, ih, (searchStep_input_frame s q).1]

/-- The strip of `CoordPanel` undoes the closing append of `handleCreated`:
on a ring of the shape first-vertex, middle, copy-of-first-vertex it removes
exactly the copy. -/
theorem strip_close (c0 : Int × Int) (rest : List (Int × Int)) :
    coordPanelVertices { coordinates := [(c0 :: rest) ++ [c0]] } = c0 :: rest := by
  have hlast : (c0 :: (rest ++ [c0])).getLast? = some c0 := by
    rw [← List.cons_append]
    exact List.getLast?_concat _
  have hdrop : (c0 :: (rest ++ [c0])).dropLast = c0 :: rest := by
    rw [← List.cons_append]
    exact List.dropLast_concat
  unfold coordPanelVertices
  dsimp only [List.headD, List.cons_append]
  rw [hlast]
  dsimp only
  rw [if_pos ⟨rfl, rfl⟩, hdrop]

/-- C1 (amended): starting a poll for job B while job A is tracked leaves
exactly one active interval, and it tracks B.  However, a late status-fetch
response for a fetch still outstanding after the switch (in particular the
one issued for A) is NOT dropped: `poll` applies `setResult` with no check
of the job identifier, so the stale response updates the stored result. -/
theorem usePolling_switch_tracks_newest (s : PollState) (A B : String)
    (fid : Nat) (d : JobData) (hInv : PollInv s) (hA : s.jobId = some A)
    (hAB : A ≠ B)
    (hfid : fid ∈ (pollStep s (.setJob (some B))).inflight.map Prod.fst) :
    (pollStep s (.setJob (some B))).jobId = some B ∧
    (∃ tid, (pollStep s (.setJob (some B))).activeTimers = [(tid, B)]) ∧
    (pollStep (pollStep s (.setJob (some B))) (.fetchResolve fid d)).result = some d := by
  have hfresh := setJob_fresh_spec s A B hInv hA hAB
  refine ⟨?_, ⟨s.nextId + 1, ?_⟩, ?_⟩
  · rw [hfresh]
  · rw [hfresh]
  · exact fetchResolve_applies _ fid d hfid

/-- Witness for the C1 theorem on a concrete two-job trace. -/
theorem usePolling_switch_tracks_newest_witness :
    pollAB.jobId = some "B" ∧
    (∃ tid, pollAB.activeTimers = [(tid, "B")]) ∧
    (pollStep pollAB (.fetchResolve 0 dStale)).result = some dStale :=
  usePolling_switch_tracks_newest pollA "A" "B" 0 dStale
    (Or.inr ⟨1, "A", rfl, rfl, rfl⟩) rfl (by decide) (by decide)

/-- C1 counterexample: with the fetch for job A still outstanding after the
switch to job B, the stored result is none, yet resolving the A fetch sets
it to the A payload while job B is the tracked one -- the late response is
not dropped, contradicting the claim. -/
theorem usePolling_stale_response_applied_cex :
    pollAB.result = none ∧
    pollAB.inflight = [(2, "B"), (0, "A")] ∧
    pollAB.jobId = some "B" ∧
    (pollStep pollAB (.fetchResolve 0 dStale)).result = some dStale :=
  ⟨rfl, rfl, rfl, rfl⟩

/-- C2 (amended): `handleReset` clears the polygon, the job identifier and
the error, and stops the active poll session (the effect cleanup clears the
interval).  But the previously fetched job result is NOT destroyed: the
hook never nulls its `result` cell, which keeps its value across reset. -/
theorem handleReset_clears (s : DashState) (hInv : PollInv s.poll) :
    (handleReset s).aoiGeojson = none ∧
    (handleReset s).error = none ∧
    (handleReset s).poll.jobId = none ∧
    (handleReset s).poll.activeTimers = [] ∧
    (handleReset s).poll.result = s.poll.result := by
  rcases setJob_none_spec s.poll hInv with ⟨h1, h2, h3⟩
  exact ⟨rfl, rfl, h1, h2, h3⟩

/-- Witness for the C2 theorem on the completed-job state. -/
theorem handleReset_clears_witness :
    (handleReset dashDone).aoiGeojson = none ∧
    (handleReset dashDone).error = none ∧
    (handleReset dashDone).poll.jobId = none ∧
    (handleReset dashDone).poll.activeTimers = [] ∧
    (handleReset dashDone).poll.result = dashDone.poll.result :=
  handleReset_clears dashDone (Or.inl rfl)

/-- C2 counterexample: after job-123 completed and `handleReset` ran, the
fetched result is still present in the state, contradicting the claim that
no previously fetched job result remains after reset. -/
theorem handleReset_keeps_result_cex :
    dashDone.poll.result = some dCompleted ∧
    (handleReset dashDone).poll.result = some dCompleted ∧
    (handleReset dashDone).poll.jobId = none ∧
    (handleReset dashDone).aoiGeojson = none :=
  ⟨rfl, rfl, rfl, rfl⟩

/-- C3 (amended): a suggestion request that has not yet been issued is indeed
cancelled by the next keystroke -- after any keystroke the only pending timer
is for the new text.  But once a request has been issued, its response is
applied unconditionally on arrival (the code attaches no revision tag), so a
response for an older query arriving after a newer response overwrites the
newer suggestions: the displayed list can correspond to a superseded query. -/
theorem suggestions_unconditional_overwrite (s : SearchState) (fid : Nat)
    (data : List Item) (h : fid ∈ s.inflight.map Prod.fst) :
    (searchStep s (.fetchReturn fid data)).suggestions = data ∧
    (∀ t, (searchStep s (.input t)).debounce = none ∨
      ∃ tid, (searchStep s (.input t)).debounce = some (tid, jsTrim t)) := by
  constructor
  · have hin : s.inflight.any (fun p => decide (p.1 = fid)) = true := by
      rw [List.any_eq_true]
      rcases List.mem_map.mp h with ⟨p, hp, hfst⟩
      exact ⟨p, hp, by simp [hfst]⟩
    rw [searchStep, if_pos hin]
  · intro t
    unfold searchStep queryEffect
    dsimp only
    by_cases hlen : jsLength (jsTrim t) < 3
    · left
      rw [if_pos hlen]
    · right
      exact ⟨s.nextId, by rw [if_neg hlen]⟩

/-- Witness for the C3 theorem at a state with one outstanding request. -/
theorem suggestions_unconditional_overwrite_witness :
    (searchStep searchIssued (.fetchReturn 1 [itemOld])).suggestions = [itemOld] ∧
    (∀ t, (searchStep searchIssued (.input t)).debounce = none ∨
      ∃ tid, (searchStep searchIssued (.input t)).debounce = some (tid, jsTrim t)) :=
  suggestions_unconditional_overwrite searchIssued 1 [itemOld] (by decide)

/-- C3 counterexample: both requests get issued (each timer fired before the
next keystroke), the newer response is applied first, and the older response
then overwrites it -- the displayed list matches the older query revision,
contradicting the claim. -/
theorem stale_suggestion_overwrites_cex :
    (runSearch searchInit staleTracePrefix).suggestions = [itemNew] ∧
    (runSearch searchInit staleTrace).suggestions = [itemOld] ∧
    itemOld ≠ itemNew :=
  ⟨rfl, rfl, by decide⟩

/-- C4: for a drawn shape with at least 3 vertices, the normalizer output
ring is the vertex list with every vertex swapped from the (lat, lng)
storage of the library to (lng, lat), followed by a copy of the first mapped
vertex; in particular the first and last ring entries are equal. -/
theorem handleCreated_closed_ring (l0 : LatLng) (tl : List LatLng)
    (h : 3 ≤ (l0 :: tl).length) :
    (handleCreated (l0 :: tl)).coordinates.headD [] =
      (l0 :: tl).map toPair ++ [toPair l0] ∧
    ((handleCreated (l0 :: tl)).coordinates.headD []).head? = some (toPair l0) ∧
    ((handleCreated (l0 :: tl)).coordinates.headD []).getLast? = some (toPair l0) := by
  refine ⟨rfl, rfl, ?_⟩
  show ((toPair l0 :: tl.map toPair) ++ [toPair l0]).getLast? = some (toPair l0)
  exact List.getLast?_concat _

/-- Witness for the C4 theorem on a concrete 3-vertex shape. -/
theorem handleCreated_closed_ring_witness :
    3 ≤ ([⟨31, 74⟩, ⟨31, 75⟩, ⟨32, 75⟩] : List LatLng).length ∧
    ((handleCreated [⟨31, 74⟩, ⟨31, 75⟩, ⟨32, 75⟩]).coordinates.headD []).head? =
      some (toPair ⟨31, 74⟩) ∧
    ((handleCreated [⟨31, 74⟩, ⟨31, 75⟩, ⟨32, 75⟩]).coordinates.headD []).getLast? =
      some (toPair ⟨31, 74⟩) :=
  ⟨by decide,
    (handleCreated_closed_ring ⟨31, 74⟩ [⟨31, 75⟩, ⟨32, 75⟩] (by decide)).2.1,
    (handleCreated_closed_ring ⟨31, 74⟩ [⟨31, 75⟩, ⟨32, 75⟩] (by decide)).2.2⟩

/-- A pending debounce timer that fires issues exactly one fetch, for the
query it captured, and leaves no pending timer. -/
theorem searchStep_timerFire_fires (m : SearchState) (tid : Nat) (q : String)
    (hdb : m.debounce = some (tid, q)) :
    (searchStep m .timerFire).inflight = (m.nextId, q) :: m.inflight ∧
    (searchStep m .timerFire).debounce = none := by
  rw [searchStep, hdb]
  exact ⟨rfl, rfl⟩

/-- C5: for a burst of keystrokes ending in Q (trimmed length at least 3)
with no timer firing during the burst, the burst itself issues no request,
the only pending timer afterwards is for the trimmed Q, and when it fires
exactly one request is issued -- for the trimmed Q -- leaving no pending
timer behind. -/
theorem debounce_single_request (s : SearchState) (qs : List String) (Q : String)
    (hQ : 3 ≤ jsLength (jsTrim Q)) :
    ((qs ++ [Q]).foldl (fun st t => searchStep st (.input t)) s).inflight =
      s.inflight ∧
    (∃ tid, ((qs ++ [Q]).foldl (fun st t => searchStep st (.input t)) s).debounce =
      some (tid, jsTrim Q)) ∧
    (searchStep ((qs ++ [Q]).foldl (fun st t => searchStep st (.input t)) s)
        .timerFire).inflight =
      (((qs ++ [Q]).foldl (fun st t => searchStep st (.input t)) s).nextId, jsTrim Q)
        :: s.inflight ∧
    (searchStep ((qs ++ [Q]).foldl (fun st t => searchStep st (.input t)) s)
        .timerFire).debounce = none := by
  have hne : ¬ jsLength (jsTrim Q) < 3 := by omega
  have hone : ∀ m : SearchState, searchStep m (.input Q) =
      { m with
        searchQuery := Q
        searchError := ""
        cachedItem := none
        debounce := some (m.nextId, jsTrim Q)
        nextId := m.nextId + 1 } := by
    intro m
    unfold searchStep queryEffect
    dsimp only
    rw [if_neg hne]
  have hfold : (qs ++ [Q]).foldl (fun st t => searchStep st (.input t)) s =
      { (qs.foldl (fun st t => searchStep st (.input t)) s) with
        searchQuery := Q
        searchError := ""
        cachedItem := none
        debounce :=
          some ((qs.foldl (fun st t => searchStep st (.input t)) s).nextId, jsTrim Q)
        nextId := (qs.foldl (fun st t => searchStep st (.input t)) s).nextId + 1 } := by
    rw [List.foldl_append, List.foldl_cons, List.foldl_nil]
    exact hone _
  have hinf : ((qs ++ [Q]).foldl (fun st t => searchStep st (.input t)) s).inflight =
      s.inflight := by
    rw [hfold]
    exact foldl_input_inflight s qs
  have hdb : ((qs ++ [Q]).foldl (fun st t => searchStep st (.input t)) s).debounce =
      some ((qs.foldl (fun st t => searchStep st (.input t)) s).nextId, jsTrim Q) := by
    rw [hfold]
  obtain ⟨hf1, hf2⟩ := searchStep_timerFire_fires _ _ _ hdb
  refine ⟨hinf, ⟨(qs.foldl (fun st t => searchStep st (.input t)) s).nextId, hdb⟩,
    ?_, hf2⟩
  rw [hf1, hinf]

/-- Witness for the C5 theorem on a concrete keystroke burst. -/
theorem debounce_single_request_witness :
    ((["L", "La", "Lahor"] ++ ["Lahore"]).foldl
        (fun st t => searchStep st (.input t)) searchInit).inflight =
      searchInit.inflight ∧
    (∃ tid, ((["L", "La", "Lahor"] ++ ["Lahore"]).foldl
        (fun st t => searchStep st (.input t)) searchInit).debounce =
      some (tid, jsTrim "Lahore")) ∧
    (searchStep ((["L", "La", "Lahor"] ++ ["Lahore"]).foldl
        (fun st t => searchStep st (.input t)) searchInit) .timerFire).inflight =
      (((["L", "La", "Lahor"] ++ ["Lahore"]).foldl
        (fun st t => searchStep st (.input t)) searchInit).nextId, jsTrim "Lahore")
        :: searchInit.inflight ∧
    (searchStep ((["L", "La", "Lahor"] ++ ["Lahore"]).foldl
        (fun st t => searchStep st (.input t)) searchInit) .timerFire).debounce = none :=
  debounce_single_request searchInit ["L", "La", "Lahor"] "Lahore" (by decide)

/-- C6: with a cached confirmed selection and the text not edited since (its
trimmed value is the non-blank short label), submitting the search form
reuses the cached item directly with no geocoding request, and any edit of
the text field nulls the cache at once. -/
theorem handleSearch_cached_reuse (s : SearchState) (it : Item)
    (hc : s.cachedItem = some it) (hq : ¬ jsTrim s.searchQuery = "") :
    handleSearch s = (goToResult it s, false) ∧
    (goToResult it s).inflight = s.inflight ∧
    (∀ t, (searchStep s (.input t)).cachedItem = none) := by
  refine ⟨?_, ?_, fun t => (searchStep_input_frame s t).2⟩
  · unfold handleSearch
    dsimp only
    rw [if_neg hq, hc]
  · unfold goToResult
    dsimp only
    split
    · rfl
    · unfold queryEffect
      dsimp only
      split <;> rfl

/-- Witness for the C6 theorem right after a suggestion pick. -/
theorem handleSearch_cached_reuse_witness :
    handleSearch cachedState = (goToResult itemOld cachedState, false) ∧
    (goToResult itemOld cachedState).inflight = cachedState.inflight ∧
    (∀ t, (searchStep cachedState (.input t)).cachedItem = none) :=
  handleSearch_cached_reuse cachedState itemOld rfl (by decide)

/-- C7: with no polygon, `handleAnalyze` sets the AOI validation message and
issues no network request; with a polygon but a missing date it sets the
date-range validation message and issues no request; and the submission call
is issued exactly when the polygon and both dates are present. -/
theorem handleAnalyze_validation (s : DashState) (o : SubmitOutcome) :
    (s.aoiGeojson = none →
      handleAnalyze s o =
        ({ s with error := some "Please draw an Area of Interest on the map." },
          false)) ∧
    (s.aoiGeojson ≠ none → (s.startDate = "" ∨ s.endDate = "") →
      handleAnalyze s o =
        ({ s with error := some "Please select a date range." }, false)) ∧
    ((handleAnalyze s o).2 = true ↔
      (s.aoiGeojson ≠ none ∧ s.startDate ≠ "" ∧ s.endDate ≠ "")) := by
  refine ⟨fun h => ?_, fun h1 h2 => ?_, ?_⟩
  · unfold handleAnalyze
    rw [if_pos h]
  · unfold handleAnalyze
    rw [if_neg h1, if_pos h2]
  · constructor
    · intro htrue
      by_cases h1 : s.aoiGeojson = none
      · unfold handleAnalyze at htrue
        rw [if_pos h1] at htrue
        simp at htrue
      · by_cases h2 : s.startDate = "" ∨ s.endDate = ""
        · unfold handleAnalyze at htrue
          rw [if_neg h1, if_pos h2] at htrue
          simp at htrue
        · push_neg at h2
          exact ⟨h1, h2.1, h2.2⟩
    · rintro ⟨h1, h2, h3⟩
      have h4 : ¬ (s.startDate = "" ∨ s.endDate = "") := by
        rintro (h | h)
        · exact h2 h
        · exact h3 h
      unfold handleAnalyze
      rw [if_neg h1, if_neg h4]
      cases o <;> rfl

/-- Witness for the C7 theorem on the empty dashboard state. -/
theorem handleAnalyze_validation_witness :
    handleAnalyze dashEmpty (.success "job-123") =
      ({ dashEmpty with
          error := some "Please draw an Area of Interest on the map." }, false) :=
  (handleAnalyze_validation dashEmpty (.success "job-123")).1 rfl

/-- C9: when the submission call fails, the poll state (hence the tracked
job identifier) is unchanged, the error banner is set to the remote detail
or the generic message, and the in-flight flag is false when the invocation
completes; on success the flag is likewise false at completion. -/
theorem handleAnalyze_failure_no_poll (s : DashState) (detail : Option String)
    (h1 : s.aoiGeojson ≠ none) (h2 : s.startDate ≠ "") (h3 : s.endDate ≠ "") :
    (handleAnalyze s (.failure detail)).1.poll = s.poll ∧
    (handleAnalyze s (.failure detail)).1.error =
      some (detail.getD "Failed to create analysis. Try again.") ∧
    (handleAnalyze s (.failure detail)).1.submitting = false ∧
    (∀ job_id, (handleAnalyze s (.success job_id)).1.submitting = false) := by
  have h4 : ¬ (s.startDate = "" ∨ s.endDate = "") := by
    rintro (h | h)
    · exact h2 h
    · exact h3 h
  refine ⟨?_, ?_, ?_, fun job_id => ?_⟩ <;>
    (unfold handleAnalyze; rw [if_neg h1, if_neg h4])

/-- Witness for the C9 theorem on the ready dashboard state. -/
theorem handleAnalyze_failure_no_poll_witness :
    (handleAnalyze dashReady (.failure none)).1.poll = dashReady.poll ∧
    (handleAnalyze dashReady (.failure none)).1.error =
      some ((none : Option String).getD "Failed to create analysis. Try again.") ∧
    (handleAnalyze dashReady (.failure none)).1.submitting = false ∧
    (∀ job_id, (handleAnalyze dashReady (.success job_id)).1.submitting = false) :=
  handleAnalyze_failure_no_poll dashReady none (by decide) (by decide) (by decide)

/-- C8: a transient status-fetch failure does not stop polling: the catch
branch leaves the interval list, the stored result, the polling flag and the
timer ref unchanged; the still-live interval fires the next scheduled fetch;
and a non-terminal resolution also leaves the interval and flag unchanged,
so only a terminal status cancels the interval. -/
theorem usePolling_transient_failure (s : PollState) (fid tid : Nat)
    (j : String) (d : JobData)
    (ht : s.activeTimers.find? (fun p => decide (p.1 = tid)) = some (tid, j))
    (hd : d.status ≠ .completed ∧ d.status ≠ .failed) :
    (pollStep s (.fetchError fid)).activeTimers = s.activeTimers ∧
    (pollStep s (.fetchError fid)).result = s.result ∧
    (pollStep s (.fetchError fid)).polling = s.polling ∧
    (pollStep (pollStep s (.fetchError fid)) (.tick tid)).inflight =
      (s.nextId, j) :: (pollStep s (.fetchError fid)).inflight ∧
    (pollStep s (.fetchResolve fid d)).activeTimers = s.activeTimers ∧
    (pollStep s (.fetchResolve fid d)).polling = s.polling := by
  obtain ⟨ha, hr, hp, htm, hjob, hn⟩ := pollStep_fetchError_frame s fid
  have hterm : ¬ (d.status = .completed ∨ d.status = .failed) := by
    rcases hd with ⟨hd1, hd2⟩
    rintro (h | h)
    · exact hd1 h
    · exact hd2 h
  refine ⟨ha, hr, hp, ?_, ?_, ?_⟩
  · have ht' : (pollStep s (.fetchError fid)).activeTimers.find?
        (fun p => decide (p.1 = tid)) = some (tid, j) := by
      rw [ha]; exact ht
    rw [pollStep_tick_fires _ tid j ht', hn]
  · by_cases hin : s.inflight.any (fun p => decide (p.1 = fid))
    · rw [pollStep, if_pos hin, if_neg hterm]
    · rw [pollStep, if_neg hin]
  · by_cases hin : s.inflight.any (fun p => decide (p.1 = fid))
    · rw [pollStep, if_pos hin, if_neg hterm]
    · rw [pollStep, if_neg hin]

/-- Witness for the C8 theorem on the single-job state. -/
theorem usePolling_transient_failure_witness :
    (pollStep pollA (.fetchError 0)).activeTimers = pollA.activeTimers ∧
    (pollStep pollA (.fetchError 0)).result = pollA.result ∧
    (pollStep pollA (.fetchError 0)).polling = pollA.polling ∧
    (pollStep (pollStep pollA (.fetchError 0)) (.tick 1)).inflight =
      (pollA.nextId, "A") :: (pollStep pollA (.fetchError 0)).inflight ∧
    (pollStep pollA (.fetchResolve 0 dStale)).activeTimers = pollA.activeTimers ∧
    (pollStep pollA (.fetchResolve 0 dStale)).polling = pollA.polling :=
  usePolling_transient_failure pollA 0 1 "A" dStale (by decide) (by decide)

/-- C10: stripping the closing vertex (the `CoordPanel` rule) from the
normalizer output ring gives back exactly the drawn vertices in (lng, lat)
order. -/
theorem coordPanel_roundtrip (l0 : LatLng) (tl : List LatLng)
    (h : 3 ≤ (l0 :: tl).length) :
    coordPanelVertices (handleCreated (l0 :: tl)) = (l0 :: tl).map toPair := by
  show coordPanelVertices
      { coordinates := [(toPair l0 :: tl.map toPair) ++ [toPair l0]] } =
    toPair l0 :: tl.map toPair
  exact strip_close (toPair l0) (tl.map toPair)

/-- Witness for the C10 theorem on a concrete 3-vertex shape. -/
theorem coordPanel_roundtrip_witness :
    coordPanelVertices (handleCreated [⟨31, 74⟩, ⟨31, 75⟩, ⟨32, 75⟩]) =
      ([⟨31, 74⟩, ⟨31, 75⟩, ⟨32, 75⟩] : List LatLng).map toPair :=
  coordPanel_roundtrip ⟨31, 74⟩ [⟨31, 75⟩, ⟨32, 75⟩] (by decide)
